import Mathlib

/-!
Shallow embedding of the ICLR review-data harvesting client
(src/src/fetch_data.py, src/src/api.py, src/api.py) and proofs about it.

Python dictionaries with string keys are modelled as association lists read
with List.lookup; absent keys surface as none, matching dict.get defaults.
JSON content values are modelled by the inductive CVal: plain strings, lists
of strings, and dictionaries of which this code only ever reads the value
key (vdict v = a dict whose value key holds v, vdictEmpty = a dict without
a value key).  Python string methods upper/lower/strip are embedded as
character-wise functions so that concrete runs kernel-evaluate.
-/

/-- Embedding of the Python str.upper method (ASCII, character-wise). -/
def pyUpper (s : String) : String := String.mk (s.data.map Char.toUpper)

/-- Embedding of the Python str.lower method (ASCII, character-wise). -/
def pyLower (s : String) : String := String.mk (s.data.map Char.toLower)

/-- Embedding of the Python str.strip method: drop whitespace from both ends. -/
def pyStrip (s : String) : String :=
  String.mk (((s.data.dropWhile Char.isWhitespace).reverse.dropWhile Char.isWhitespace).reverse)

/-- Boolean list-prefix test, used to implement substring containment. -/
def isPrefixB : List Char → List Char → Bool
  | [], _ => true
  | _ :: _, [] => false
  | a :: as, b :: bs => a == b && isPrefixB as bs

/-- Boolean test that needle occurs as a contiguous sublist of the haystack. -/
def containsSub (needle : List Char) : List Char → Bool
  | [] => needle.isEmpty
  | c :: rest => isPrefixB needle (c :: rest) || containsSub needle rest

/-- Embedding of the Python operator needle in hay for strings. -/
def strContains (hay needle : String) : Bool := containsSub needle.data hay.data

/-- Model of a JSON content value as this client reads it: a plain string, a
plain list of strings, or a dict of which only the value key is ever read
(vdict v holds the value key with content v, vdictEmpty lacks a value key). -/
inductive CVal where
  | vstr (s : String)
  | vlist (l : List String)
  | vdict (v : CVal)
  | vdictEmpty
deriving DecidableEq, Repr

/-- Embedding of the Python expression joining a value with the separator
comma-space: joining a list joins its elements, joining a string iterates its
characters, joining a dict iterates its keys (here at most the value key). -/
def pyJoin : CVal → String
  | .vlist l => String.intercalate ", " l
  | .vstr s => String.intercalate ", " (s.data.map (fun c => String.mk [c]))
  | .vdict _ => "value"
  | .vdictEmpty => ""

/-- Model of the content map of a reply as read by extract_reviews in
src/src/fetch_data.py: either a well-formed string-valued dict, or a value of
an unexpected shape on which the first attribute access raises (the raised
message is recorded). -/
inductive ReplyContent where
  | fields (m : List (String × String))
  | malformed (err : String)
deriving DecidableEq, Repr

/-- Model of one reply dict nested under a submission.  The signatures field
is none when the key is absent (so dict.get falls back to its default) and
some l when present with list value l. -/
structure Reply where
  id : String
  invitation : String
  signatures : Option (List String)
  content : ReplyContent
  cdate : Option Int
deriving DecidableEq, Repr

/-- Model of a raw submission note: identifier, optional content map (none
when the attribute or key is absent), optional nested reply list, and
creation timestamp. -/
structure Note where
  id : String
  content : Option (List (String × CVal))
  replies : Option (List Reply)
  cdate : Option Int
deriving DecidableEq, Repr

/-- Flat paper record produced by ICLRDataCollector.extract_paper_info
(src/src/fetch_data.py lines 31 to 46).  Scalar fields keep the raw looked-up
value, list fields are joined into one string. -/
structure PaperRecord where
  paper_id : String
  title : CVal
  abstract : CVal
  authors : String
  author_ids : String
  keywords : String
  primary_area : CVal
  year : Int
  venue : String
  pdf_url : String
  submission_date : Option Int
deriving DecidableEq, Repr

/-- Embedding of ICLRDataCollector.extract_paper_info from
src/src/fetch_data.py lines 31 to 46: every field is read with a defensive
default (empty string for scalars, empty list for list fields) and the three
list fields are joined with comma-space. -/
def extract_paper_info (paper : Note) (year : Int) (venue : String) : PaperRecord :=
  let content := paper.content.getD []
  { paper_id := paper.id
    title := (content.lookup "title").getD (.vstr "")
    abstract := (content.lookup "abstract").getD (.vstr "")
    authors := pyJoin ((content.lookup "authors").getD (.vlist []))
    author_ids := pyJoin ((content.lookup "authorids").getD (.vlist []))
    keywords := pyJoin ((content.lookup "keywords").getD (.vlist []))
    primary_area := (content.lookup "primary_area").getD (.vstr "")
    year := year
    venue := venue
    pdf_url := "https://openreview.net/pdf?id=" ++ paper.id
    submission_date := paper.cdate }

/-- Embedding of the local helper get_value inside extract_paper_from_note
(src/src/api.py lines 45 to 49): look the field up with default empty string,
and when the value is a dict return its value key with default empty string. -/
def get_value (content : List (String × CVal)) (field : String) : CVal :=
  match content.lookup field with
  | none => .vstr ""
  | some (.vdict v) => v
  | some .vdictEmpty => .vstr ""
  | some v => v

/-- Embedding of the local helper get_list_value inside extract_paper_from_note
(src/src/api.py lines 51 to 55): look the field up with default empty list;
a dict value yields its value key unchecked, a non-list non-dict value is
coerced to the empty list. -/
def get_list_value (content : List (String × CVal)) (field : String) : CVal :=
  match content.lookup field with
  | none => .vlist []
  | some (.vdict v) => v
  | some .vdictEmpty => .vlist []
  | some (.vlist l) => .vlist l
  | some (.vstr _) => .vlist []

/-- Flat paper record produced by extract_paper_from_note
(src/src/api.py lines 41 to 69). -/
structure PaperRecordV2 where
  paper_id : String
  title : CVal
  abstract : CVal
  authors : String
  authorids : String
  keywords : String
  primary_area : CVal
  venue : CVal
  year : Int
  pdf_url : String
  forum_url : String
deriving DecidableEq, Repr

/-- Embedding of extract_paper_from_note from src/src/api.py lines 41 to 69:
the version-2 note extractor that unwraps values of the shape dict-with-value
key transparently via get_value and get_list_value. -/
def extract_paper_from_note (note : Note) (year : Int) : PaperRecordV2 :=
  let content := note.content.getD []
  { paper_id := note.id
    title := get_value content "title"
    abstract := get_value content "abstract"
    authors := pyJoin (get_list_value content "authors")
    authorids := pyJoin (get_list_value content "authorids")
    keywords := pyJoin (get_list_value content "keywords")
    primary_area := get_value content "primary_area"
    venue := get_value content "venue"
    year := year
    pdf_url := "https://openreview.net/pdf?id=" ++ note.id
    forum_url := "https://openreview.net/forum?id=" ++ note.id }

/-- Wrap every content value in the versioned shape with a value key,
modelling the version-2 content presentation of the same submission. -/
def wrapContent (content : List (String × CVal)) : List (String × CVal) :=
  content.map (fun kv => (kv.1, .vdict kv.2))

/-- The three list-valued content fields joined by the note extractors. -/
def list_fields : List String := ["authors", "authorids", "keywords"]

/-- A content value of the plain (unwrapped) shape appropriate for its field:
no dict wrapper anywhere, and a list value in list-valued fields. -/
def plainShaped (field : String) (v : CVal) : Bool :=
  match v with
  | .vstr _ => !(list_fields.contains field)
  | .vlist _ => true
  | .vdict _ => false
  | .vdictEmpty => false

/-- Flat review record produced by ICLRDataCollector.extract_reviews
(src/src/fetch_data.py lines 48 to 81). -/
structure ReviewRecord where
  review_id : String
  paper_id : String
  year : Int
  venue : String
  reviewer : String
  full_review_text : String
  rating : String
  confidence : String
  summary : String
  strengths : String
  weaknesses : String
  questions : String
  limitations : String
  recommendation : String
  review_date : Option Int
deriving DecidableEq, Repr

/-- Embedding of content.get(section, empty) on a well-formed reply content. -/
def getStr (m : List (String × String)) (field : String) : String :=
  (m.lookup field).getD ""

/-- The fixed ordered section list of src/src/fetch_data.py line 57. -/
def review_sections : List String :=
  ["summary", "strengths", "weaknesses", "questions", "limitations", "review"]

/-- Classification of a reply as a review, src/src/fetch_data.py line 55:
the invitation contains Official_Review or contains Review as a substring. -/
def isReviewInvitation (invitation : String) : Bool :=
  strContains invitation "Official_Review" || strContains invitation "Review"

/-- Embedding of the full_text generator expression of
src/src/fetch_data.py lines 58 to 61: keep the sections whose content is a
truthy (non-empty) string, render each as upper-cased name, colon, space,
text, and join with a blank line. -/
def buildFullText (m : List (String × String)) : String :=
  String.intercalate "\n\n"
    ((review_sections.filter (fun s => !(getStr m s).isEmpty)).map
      (fun s => pyUpper s ++ ": " ++ getStr m s))

/-- The review record built for one reply with well-formed content m,
following the dict literal of src/src/fetch_data.py lines 62 to 78.  The
reviewer is the head of the signatures list, or Anonymous when the key is
absent; the present-but-empty case never reaches this builder because
indexing raises first (see extractReviewRecord). -/
def mkReviewRecord (pid : String) (year : Int) (venue : String) (r : Reply)
    (m : List (String × String)) : ReviewRecord :=
  { review_id := r.id
    paper_id := pid
    year := year
    venue := venue
    reviewer := match r.signatures with
      | none => "Anonymous"
      | some [] => "Anonymous"
      | some (s :: _) => s
    full_review_text := pyStrip (buildFullText m)
    rating := getStr m "rating"
    confidence := getStr m "confidence"
    summary := getStr m "summary"
    strengths := getStr m "strengths"
    weaknesses := getStr m "weaknesses"
    questions := getStr m "questions"
    limitations := getStr m "limitations"
    recommendation := getStr m "recommendation"
    review_date := r.cdate }

/-- Field extraction for one reply inside the try block of extract_reviews.
It raises (returns error) when the content map has an unexpected shape, or
when the signatures key is present with an empty list so that indexing the
default-free element zero raises IndexError. -/
def extractReviewRecord (pid : String) (year : Int) (venue : String)
    (r : Reply) : Except String ReviewRecord :=
  match r.content with
  | .malformed e => .error e
  | .fields m =>
    if r.signatures = some [] then .error "list index out of range"
    else .ok (mkReviewRecord pid year venue r m)

/-- The reply loop of extract_reviews, src/src/fetch_data.py lines 52 to 80:
non-review replies are passed over, review replies are extracted, and a reply
whose extraction raises is logged and skipped by the except handler. -/
def extractReviewsLoop (pid : String) (year : Int) (venue : String) :
    List Reply → List ReviewRecord
  | [] => []
  | r :: rest =>
    if isReviewInvitation r.invitation then
      match extractReviewRecord pid year venue r with
      | .ok rec => rec :: extractReviewsLoop pid year venue rest
      | .error _ => extractReviewsLoop pid year venue rest
    else extractReviewsLoop pid year venue rest

/-- Embedding of ICLRDataCollector.extract_reviews from src/src/fetch_data.py
lines 48 to 81: when the submission carries a reply list, run the loop, else
return the empty list. -/
def extract_reviews (paper : Note) (year : Int) (venue : String) : List ReviewRecord :=
  match paper.replies with
  | none => []
  | some rs => extractReviewsLoop paper.id year venue rs

/-- One HTTP response of the notes listing endpoint: status code and the
decoded notes list of the JSON body. -/
structure HttpResponse where
  status : Nat
  notes : List Note
deriving Repr

/-- Failure of the filtered-notes fetch stage: the ValueError raised for an
unsupported filter (the ConfigurationError of the specification) or the
HTTPError raised by raise_for_status (the RemoteFetchError). -/
inductive FetchError where
  | configError (msg : String)
  | httpError (status : Nat)
deriving DecidableEq, Repr

/-- The keys of filter_params_map in src/src/fetch_data.py lines 153 to 184. -/
def supported_filters : List String :=
  ["oral", "spotlight", "poster", "submitted", "reject", "withdrawn"]

/-- The pagination loop of fetch_filtered_notes, src/src/fetch_data.py lines
192 to 208, over the successive responses of the remote listing.  The
returned pair is the outcome and the number of GET requests issued.  A status
in the client or server error range raises immediately; an empty notes list
breaks the loop; otherwise the page is appended and the loop continues.  An
exhausted response list is read as the server answering with empty pages from
then on. -/
def fetchNotesLoop : List HttpResponse → Except FetchError (List Note) × Nat
  | [] => (Except.ok [], 0)
  | r :: rest =>
    if 400 ≤ r.status ∧ r.status < 600 then (Except.error (.httpError r.status), 1)
    else if r.notes.isEmpty then (Except.ok [], 1)
    else
      match fetchNotesLoop rest with
      | (Except.ok tail, n) => (Except.ok (r.notes ++ tail), n + 1)
      | (Except.error e, n) => (Except.error e, n + 1)

/-- Embedding of ICLRDataCollector.fetch_filtered_notes from
src/src/fetch_data.py lines 145 to 211: an unsupported filter raises
ValueError before the loop (zero requests issued), otherwise the pagination
loop runs against the remote responses. -/
def fetch_filtered_notes (filter_type : String) (responses : List HttpResponse) :
    Except FetchError (List Note) × Nat :=
  if filter_type ∈ supported_filters then fetchNotesLoop responses
  else (Except.error (.configError ("Filter " ++ filter_type ++ " is not supported.")), 0)

/-- The filter_map dict of collect_filtered, src/src/fetch_data.py lines
234 to 241. -/
def filter_map : List (String × String) :=
  [("oral", "ICLR 2024 oral"),
   ("spotlight", "ICLR 2024 spotlight"),
   ("poster", "ICLR 2024 poster"),
   ("reject", "ICLR 2024 reject"),
   ("withdrawn", "ICLR 2024 withdrawn submission"),
   ("desk_rejected", "ICLR 2024 desk rejected submission")]

/-- Flat row built per note by collect_filtered, src/src/fetch_data.py lines
252 to 261. -/
structure PaperRow where
  paper_id : String
  title : CVal
  abstract : CVal
  authors : String
  pdf_url : String
  venue : String
  year : Int
deriving DecidableEq, Repr

/-- The per-note row construction of collect_filtered: plain defensive gets
with no unwrapping. -/
def noteToPaperRow (year : Int) (venue : String) (note : Note) : PaperRow :=
  let content := note.content.getD []
  { paper_id := note.id
    title := (content.lookup "title").getD (.vstr "")
    abstract := (content.lookup "abstract").getD (.vstr "")
    authors := pyJoin ((content.lookup "authors").getD (.vlist []))
    pdf_url := "https://openreview.net/pdf?id=" ++ note.id
    venue := venue
    year := year }

/-- Embedding of ICLRDataCollector.collect_filtered from src/src/fetch_data.py
lines 231 to 266: a filter type missing from its own filter_map is announced
by a print and answered with a plain empty list (ok, not an error); a known
key delegates to fetch_filtered_notes, whose exceptions propagate. -/
def collect_filtered (year : Int) (filter_type : String)
    (responses : List HttpResponse) : Except FetchError (List PaperRow) :=
  let venue := "ICLR.cc/" ++ toString year ++ "/Conference"
  match filter_map.lookup (pyLower filter_type) with
  | none => Except.ok []
  | some _ =>
    match fetch_filtered_notes filter_type responses with
    | (Except.error e, _) => Except.error e
    | (Except.ok notes, _) => Except.ok (notes.map (noteToPaperRow year venue))

/-- One career or education history entry scraped from the profile page
(src/src/fetch_data.py lines 301 to 309). -/
structure CareerEntry where
  position : String
  institution : String
  timeframe : String
deriving DecidableEq, Repr

/-- One advisor or relation entry (src/src/fetch_data.py lines 314 to 321). -/
structure AdvisorEntry where
  type : String
  name : String
  timeframe : String
deriving DecidableEq, Repr

/-- One expertise entry (src/src/fetch_data.py lines 326 to 332). -/
structure ExpertiseEntry where
  area : String
  timeframe : String
deriving DecidableEq, Repr

/-- The full profile dict built on a successful scrape, src/src/fetch_data.py
lines 334 to 346.  The emails field is already joined with comma-space there;
joined_date is none when the calendar marker is absent (Python None). -/
structure ParsedProfile where
  name : String
  preferred_name : String
  affiliation : String
  emails : String
  joined_date : Option String
  personal_links : List (String × String)
  career_and_education_history : List CareerEntry
  advisors_relations_and_conflicts : List AdvisorEntry
  expertise : List ExpertiseEntry
deriving DecidableEq, Repr

/-- Outcome of one profile-page GET as seen by fetch_author_profile: either a
response with a status and the result of parsing its body (an error value
records the exception a parse would raise), or a network error raised by the
GET itself. -/
inductive FetchOutcome where
  | resp (status : Nat) (parsed : Except String ParsedProfile)
  | netError (msg : String)

/-- The dict returned by fetch_author_profile for one identifier: the full
profile on success, only the author_id on a non-200 status, and the
author_id plus an error string when an exception was caught. -/
structure ProfileRecord where
  author_id : String
  error : Option String
  profile : Option ParsedProfile
deriving DecidableEq, Repr

/-- Embedding of ICLRDataCollector.fetch_author_profile from
src/src/fetch_data.py lines 270 to 350 (the variant in src/api.py lines 87
to 169 has the same control flow).  A non-200 status returns the bare
author_id dict; a successful parse returns the full profile; a network error
or parse exception is caught and returns the author_id with the error text.
The function is total: no outcome escapes as an exception. -/
def fetch_author_profile (env : String → FetchOutcome) (author_id : String) :
    ProfileRecord :=
  match env author_id with
  | .netError e => { author_id := author_id, error := some e, profile := none }
  | .resp status parsed =>
    if status ≠ 200 then { author_id := author_id, error := none, profile := none }
    else
      match parsed with
      | .ok p => { author_id := author_id, error := none, profile := some p }
      | .error e => { author_id := author_id, error := some e, profile := none }

/-- Embedding of ICLRDataCollector.fetch_all_author_profiles from
src/src/fetch_data.py lines 354 to 360: one task per identifier, gathered in
the order of the input list. -/
def fetch_all_author_profiles (env : String → FetchOutcome)
    (author_ids : List String) : List ProfileRecord :=
  author_ids.map (fetch_author_profile env)

/-- Python p.get(name, empty) on a profile record dict. -/
def pgName (r : ProfileRecord) : String :=
  match r.profile with | some p => p.name | none => ""

/-- Python p.get(affiliation, empty) on a profile record dict. -/
def pgAffiliation (r : ProfileRecord) : String :=
  match r.profile with | some p => p.affiliation | none => ""

/-- Python p.get(joined_date, empty) on a profile record dict: a full profile
carries its (possibly None) value, a degraded record falls back to the empty
string. -/
def pgJoinedDate (r : ProfileRecord) : Option String :=
  match r.profile with | some p => p.joined_date | none => some ""

/-- Python p.get(personal_links, empty dict) on a profile record dict. -/
def pgLinks (r : ProfileRecord) : List (String × String) :=
  match r.profile with | some p => p.personal_links | none => []

/-- Python p.get(career_and_education_history, empty list). -/
def pgCareer (r : ProfileRecord) : List CareerEntry :=
  match r.profile with | some p => p.career_and_education_history | none => []

/-- Python p.get(advisors_relations_and_conflicts, empty list). -/
def pgAdvisors (r : ProfileRecord) : List AdvisorEntry :=
  match r.profile with | some p => p.advisors_relations_and_conflicts | none => []

/-- Python p.get(expertise, empty list). -/
def pgExpertise (r : ProfileRecord) : List ExpertiseEntry :=
  match r.profile with | some p => p.expertise | none => []

/-- The links_str expression of src/src/fetch_data.py line 411: keep pairs
with a truthy value, render as key, colon, space, value, join comma-space. -/
def linksStr (r : ProfileRecord) : String :=
  String.intercalate ", "
    (((pgLinks r).filter (fun kv => !kv.2.isEmpty)).map
      (fun kv => kv.1 ++ ": " ++ kv.2))

/-- The advisors_str expression of src/src/fetch_data.py line 412. -/
def advisorsStr (r : ProfileRecord) : String :=
  String.intercalate "; "
    ((pgAdvisors r).map (fun a => a.type ++ ": " ++ a.name ++ " (" ++ a.timeframe ++ ")"))

/-- The expertise_str expression of src/src/fetch_data.py line 413. -/
def expertiseStr (r : ProfileRecord) : String :=
  String.intercalate "; "
    ((pgExpertise r).map (fun e => e.area ++ " (" ++ e.timeframe ++ ")"))

/-- One export row of the per-career-entry flattening policy of
collect_data_with_authors, src/src/fetch_data.py lines 419 to 444. -/
structure AuthorRow where
  author_id : String
  name : String
  affiliation : String
  joined_date : Option String
  personal_links : String
  position : String
  institution : String
  timeframe : String
  advisors : String
  expertise : String
deriving DecidableEq, Repr

/-- The row literal shared by both branches of the flattening loop. -/
def authorRowOf (r : ProfileRecord) (pos inst tf : String) : AuthorRow :=
  { author_id := r.author_id
    name := pgName r
    affiliation := pgAffiliation r
    joined_date := pgJoinedDate r
    personal_links := linksStr r
    position := pos
    institution := inst
    timeframe := tf
    advisors := advisorsStr r
    expertise := expertiseStr r }

/-- Embedding of the per-profile flattening of collect_data_with_authors,
src/src/fetch_data.py lines 415 to 444: a truthy (non-empty) career history
yields one row per entry, an empty one yields the single fallback row with
empty position, institution and timeframe. -/
def flatten_profile_rows (r : ProfileRecord) : List AuthorRow :=
  match pgCareer r with
  | [] => [authorRowOf r "" "" ""]
  | entries => entries.map (fun e => authorRowOf r e.position e.institution e.timeframe)

/-- The whole-batch flattening: rows of successive profiles are appended in
order, src/src/fetch_data.py lines 405 to 444. -/
def flatten_profiles (ps : List ProfileRecord) : List AuthorRow :=
  (ps.map flatten_profile_rows).flatten

/-- The scalar (career-independent) fields of an export row. -/
def rowScalars (row : AuthorRow) :
    String × String × String × Option String × String × String × String :=
  (row.author_id, row.name, row.affiliation, row.joined_date,
   row.personal_links, row.advisors, row.expertise)

/-- Sample note with no content, used in concrete runs. -/
def wNote1 : Note := { id := "n1", content := none, replies := none, cdate := none }

/-- Second sample note with no content, used in concrete runs. -/
def wNote2 : Note := { id := "n2", content := none, replies := none, cdate := none }

/-- A well-formed official review reply. -/
def goodReviewReply : Reply :=
  { id := "r1"
    invitation := "ICLR.cc/2024/Conference/-/Official_Review"
    signatures := some ["Reviewer_abc"]
    content := .fields [("summary", "ok"), ("strengths", "good"), ("rating", "8")]
    cdate := some 5 }

/-- A decision reply, not classified as a review. -/
def decisionReply : Reply :=
  { id := "r2"
    invitation := "ICLR.cc/2024/Conference/-/Decision"
    signatures := some ["Program_Chairs"]
    content := .fields [("decision", "Accept")]
    cdate := none }

/-- A review reply whose signatures key is present with an empty list, so
that indexing element zero raises inside the try block. -/
def emptySigReply : Reply :=
  { id := "r3"
    invitation := "ICLR.cc/2024/Conference/-/Official_Review"
    signatures := some []
    content := .fields [("summary", "meh")]
    cdate := none }

/-- A review reply whose content has an unexpected shape, so that the first
field access raises inside the try block. -/
def malformedReply : Reply :=
  { id := "r4"
    invitation := "ICLR.cc/2024/Conference/-/Official_Review"
    signatures := some ["Reviewer_x"]
    content := .malformed "AttributeError"
    cdate := none }

/-- A review reply without a signatures key, so the dict.get default list
containing Anonymous is indexed instead. -/
def noSigReply : Reply :=
  { id := "r6"
    invitation := "ICLR.cc/2024/Conference/-/Official_Review"
    signatures := none
    content := .fields [("summary", "fine")]
    cdate := none }

/-- The pagination loop concatenates a run of successful non-empty pages and
stops at the first empty page, never consulting later responses; it issues
exactly one request per page plus the final empty one. -/
theorem fetchNotesLoop_pages (pages : List (List Note)) (rest : List HttpResponse)
    (hne : ∀ p ∈ pages, p ≠ []) :
    fetchNotesLoop (pages.map (fun p => { status := 200, notes := p }) ++
        { status := 200, notes := [] } :: rest) =
      (Except.ok pages.flatten, pages.length + 1) := by
  induction pages with
  | nil => simp [fetchNotesLoop]
  | cons p ps ih =>
    have hp : p ≠ [] := hne p (List.mem_cons_self p ps)
    have hps : ∀ q ∈ ps, q ≠ [] := fun q hq => hne q (List.mem_cons_of_mem p hq)
    cases p with
    | nil => exact absurd rfl hp
    | cons a as =>
      simp only [List.map_cons, List.cons_append, fetchNotesLoop, List.append_eq]
      rw [ih hps]
      norm_num [List.flatten_cons]

/-- C1: for every supported filter, when the notes source answers with
successful pages of sizes p1, p2, ..., then an empty page,
fetch_filtered_notes returns the order-preserving concatenation of the pages
(so its length is p1 + p2 + ...), terminates at the first empty page without
consulting later responses, and an immediate empty first page (pages = [])
yields an empty result without error. -/
theorem fetch_filtered_notes_concat_pages (f : String) (hf : f ∈ supported_filters)
    (pages : List (List Note)) (hne : ∀ p ∈ pages, p ≠ []) (rest : List HttpResponse) :
    fetch_filtered_notes f (pages.map (fun p => { status := 200, notes := p }) ++
        { status := 200, notes := [] } :: rest) =
      (Except.ok pages.flatten, pages.length + 1) ∧
    pages.flatten.length = (pages.map List.length).sum := by
  refine ⟨?_, List.length_flatten pages⟩
  rw [fetch_filtered_notes, if_pos hf]
  exact fetchNotesLoop_pages pages rest hne

/-- Witness for C1 at a concrete two-page run of the oral filter. -/
theorem fetch_filtered_notes_concat_pages_witness :
    "oral" ∈ supported_filters ∧
    fetch_filtered_notes "oral"
        ([[wNote1], [wNote2]].map (fun p => { status := 200, notes := p }) ++
          { status := 200, notes := [] } :: []) =
      (Except.ok [[wNote1], [wNote2]].flatten, [[wNote1], [wNote2]].length + 1) :=
  ⟨by decide,
   (fetch_filtered_notes_concat_pages "oral" (by decide) [[wNote1], [wNote2]]
     (by decide) []).1⟩

/-- Every branch of fetch_author_profile keeps the requested identifier in
the returned record. -/
theorem fetch_author_profile_id (env : String → FetchOutcome) (aid : String) :
    (fetch_author_profile env aid).author_id = aid := by
  unfold fetch_author_profile
  cases env aid with
  | netError e => rfl
  | resp status parsed =>
    by_cases h : status ≠ 200
    · simp [h]
    · cases parsed <;> simp [h]

/-- The batch fetch yields one record per identifier, carrying it. -/
theorem fetch_all_author_profiles_ids (env : String → FetchOutcome)
    (ids : List String) :
    (fetch_all_author_profiles env ids).map ProfileRecord.author_id = ids := by
  unfold fetch_all_author_profiles
  induction ids with
  | nil => rfl
  | cons a as ih => simp only [List.map_cons, fetch_author_profile_id, ih]

/-- C2: no per-identifier outcome raises out of the batch: the batch always
produces exactly one record per identifier carrying that author_id; an HTTP
404 yields exactly the bare author_id record (no error field, no profile); a
network error or a parse exception yields the author_id with the error text
attached. -/
theorem fetch_author_profile_degraded (env : String → FetchOutcome)
    (ids : List String) (aid : String) (body : Except String ParsedProfile)
    (e : String) :
    (fetch_all_author_profiles env ids).map ProfileRecord.author_id = ids ∧
    (env aid = .resp 404 body →
      fetch_author_profile env aid =
        { author_id := aid, error := none, profile := none }) ∧
    (env aid = .netError e →
      fetch_author_profile env aid =
        { author_id := aid, error := some e, profile := none }) ∧
    (env aid = .resp 200 (.error e) →
      fetch_author_profile env aid =
        { author_id := aid, error := some e, profile := none }) := by
  refine ⟨fetch_all_author_profiles_ids env ids, ?_, ?_, ?_⟩
  · intro h
    unfold fetch_author_profile
    rw [h]
    norm_num
  · intro h
    unfold fetch_author_profile
    rw [h]
  · intro h
    unfold fetch_author_profile
    rw [h]
    norm_num

/-- Environment used to witness the degradation policy: one identifier gets
a 404, one a network error, one a parse failure. -/
def wEnv : String → FetchOutcome := fun aid =>
  if aid = "a404" then .resp 404 (.error "not parsed")
  else if aid = "anet" then .netError "timeout"
  else .resp 200 (.error "parse failure")

/-- Witness for C2 on a concrete three-identifier batch. -/
theorem fetch_author_profile_degraded_witness :
    (fetch_all_author_profiles wEnv ["a404", "anet", "aparse"]).map
        ProfileRecord.author_id = ["a404", "anet", "aparse"] ∧
    fetch_author_profile wEnv "a404" =
      { author_id := "a404", error := none, profile := none } ∧
    fetch_author_profile wEnv "anet" =
      { author_id := "anet", error := some "timeout", profile := none } ∧
    fetch_author_profile wEnv "aparse" =
      { author_id := "aparse", error := some "parse failure", profile := none } :=
  ⟨(fetch_author_profile_degraded wEnv ["a404", "anet", "aparse"] "a404"
      (.error "not parsed") "x").1,
   (fetch_author_profile_degraded wEnv [] "a404" (.error "not parsed") "x").2.1 rfl,
   (fetch_author_profile_degraded wEnv [] "anet" (.error "not parsed") "timeout").2.2.1 rfl,
   (fetch_author_profile_degraded wEnv [] "aparse" (.error "not parsed") "parse failure").2.2.2 rfl⟩

/-- C10: the batch fetch returns a list of exactly the input length, in input
order, and the record at every index carries the identifier at the same index
of the input, whatever each individual fetch outcome was. -/
theorem fetch_all_author_profiles_aligned (env : String → FetchOutcome)
    (ids : List String) :
    (fetch_all_author_profiles env ids).length = ids.length ∧
    ∀ i : Nat,
      (fetch_all_author_profiles env ids)[i]?.map ProfileRecord.author_id = ids[i]? := by
  constructor
  · simp [fetch_all_author_profiles]
  · intro i
    unfold fetch_all_author_profiles
    rw [List.getElem?_map]
    cases h : ids[i]? with
    | none => rfl
    | some aid => simp [fetch_author_profile_id]

/-- C8: the version-1 note extractor returns exactly one flat record for any
submission and never raises: a submission with no content map at all yields
the fully defaulted record, and each absent content field independently
defaults to an empty string (scalars) or to the join of an empty list (list
fields). -/
theorem extract_paper_info_defaults (id : String) (year : Int) (venue : String)
    (replies : Option (List Reply)) (cdate : Option Int)
    (content : List (String × CVal)) :
    extract_paper_info (Note.mk id none replies cdate) year venue =
      PaperRecord.mk id (.vstr "") (.vstr "") "" "" "" (.vstr "") year venue
        ("https://openreview.net/pdf?id=" ++ id) cdate ∧
    (content.lookup "title" = none →
      (extract_paper_info (Note.mk id (some content) replies cdate) year venue).title = .vstr "") ∧
    (content.lookup "abstract" = none →
      (extract_paper_info (Note.mk id (some content) replies cdate) year venue).abstract = .vstr "") ∧
    (content.lookup "authors" = none →
      (extract_paper_info (Note.mk id (some content) replies cdate) year venue).authors = "") ∧
    (content.lookup "authorids" = none →
      (extract_paper_info (Note.mk id (some content) replies cdate) year venue).author_ids = "") ∧
    (content.lookup "keywords" = none →
      (extract_paper_info (Note.mk id (some content) replies cdate) year venue).keywords = "") ∧
    (content.lookup "primary_area" = none →
      (extract_paper_info (Note.mk id (some content) replies cdate) year venue).primary_area = .vstr "") := by
  refine ⟨rfl, ?_, ?_, ?_, ?_, ?_, ?_⟩ <;>
    (intro h; simp [extract_paper_info, h, pyJoin]; try rfl)

/-- Witness for C8: a submission with no content map, and one whose content
has only a title so every other field is absent. -/
theorem extract_paper_info_defaults_witness :
    extract_paper_info (Note.mk "pX" none none none) 2020 "ICLR.cc/2020/Conference" =
      PaperRecord.mk "pX" (.vstr "") (.vstr "") "" "" "" (.vstr "") 2020
        "ICLR.cc/2020/Conference" ("https://openreview.net/pdf?id=" ++ "pX") none ∧
    (extract_paper_info (Note.mk "pX" (some [("title", CVal.vstr "T")]) none none)
        2020 "ICLR.cc/2020/Conference").authors = "" :=
  ⟨(extract_paper_info_defaults "pX" 2020 "ICLR.cc/2020/Conference" none none
      [("title", CVal.vstr "T")]).1,
   (extract_paper_info_defaults "pX" 2020 "ICLR.cc/2020/Conference" none none
      [("title", CVal.vstr "T")]).2.2.2.1 rfl⟩

/-- Looking a field up after wrapping every value is the wrap of the plain
lookup. -/
theorem lookup_wrapContent (c : List (String × CVal)) (f : String) :
    (wrapContent c).lookup f = (c.lookup f).map CVal.vdict := by
  induction c with
  | nil => rfl
  | cons kv rest ih =>
    obtain ⟨k, v⟩ := kv
    simp only [wrapContent, List.map_cons, List.lookup] at *
    cases hk : f == k <;> simp [hk, ih]

/-- A successful lookup value is a member of the association list under the
looked-up key. -/
theorem lookup_mem (c : List (String × CVal)) (f : String) (v : CVal)
    (h : c.lookup f = some v) : (f, v) ∈ c := by
  induction c with
  | nil => simp [List.lookup] at h
  | cons kv rest ih =>
    obtain ⟨k, w⟩ := kv
    simp only [List.lookup] at h
    cases hk : f == k
    · rw [hk] at h
      exact List.mem_cons_of_mem _ (ih h)
    · rw [hk] at h
      simp only [Option.some.injEq] at h
      have hfk : f = k := eq_of_beq hk
      subst hfk
      subst h
      exact List.mem_cons_self _ _

/-- On dict-free content, get_value is unchanged by wrapping every value. -/
theorem get_value_wrapContent (c : List (String × CVal))
    (h : ∀ kv ∈ c, plainShaped kv.1 kv.2 = true) (f : String) :
    get_value (wrapContent c) f = get_value c f := by
  unfold get_value
  rw [lookup_wrapContent]
  cases hc : c.lookup f with
  | none => rfl
  | some v =>
    have hp := h (f, v) (lookup_mem c f v hc)
    cases v with
    | vstr s => rfl
    | vlist l => rfl
    | vdict w => simp [plainShaped] at hp
    | vdictEmpty => simp [plainShaped] at hp

/-- On well-shaped content, get_list_value of a list-valued field is
unchanged by wrapping every value. -/
theorem get_list_value_wrapContent (c : List (String × CVal))
    (h : ∀ kv ∈ c, plainShaped kv.1 kv.2 = true) (f : String)
    (hf : f ∈ list_fields) :
    get_list_value (wrapContent c) f = get_list_value c f := by
  unfold get_list_value
  rw [lookup_wrapContent]
  cases hc : c.lookup f with
  | none => rfl
  | some v =>
    have hp := h (f, v) (lookup_mem c f v hc)
    cases v with
    | vstr s =>
      exfalso
      have hp2 : list_fields.contains f = false := by simpa [plainShaped] using hp
      simp [List.elem_iff] at hp2
      exact hp2 hf
    | vlist l => rfl
    | vdict w => simp [plainShaped] at hp
    | vdictEmpty => simp [plainShaped] at hp

/-- C4 (amended): the version-2 note extractor treats a submission whose
content values are all wrapped in the versioned value shape exactly like the
same submission with the plain values, provided the plain values are
well-shaped for their fields: no dict values, and list values in the three
list-valued fields.  (For a plain string in a list-valued field the two
shapes genuinely differ, see the counterexample.) -/
theorem extract_wrapped_eq_plain (id : String) (year : Int)
    (replies : Option (List Reply)) (cdate : Option Int)
    (content : List (String × CVal))
    (h : ∀ kv ∈ content, plainShaped kv.1 kv.2 = true) :
    extract_paper_from_note (Note.mk id (some (wrapContent content)) replies cdate) year =
    extract_paper_from_note (Note.mk id (some content) replies cdate) year := by
  simp only [extract_paper_from_note, Option.getD_some, PaperRecordV2.mk.injEq]
  refine ⟨trivial, ?_, ?_, ?_, ?_, ?_, ?_, ?_, trivial, trivial, trivial⟩
  · exact get_value_wrapContent content h "title"
  · exact get_value_wrapContent content h "abstract"
  · exact congrArg pyJoin (get_list_value_wrapContent content h "authors" (by decide))
  · exact congrArg pyJoin (get_list_value_wrapContent content h "authorids" (by decide))
  · exact congrArg pyJoin (get_list_value_wrapContent content h "keywords" (by decide))
  · exact get_value_wrapContent content h "primary_area"
  · exact get_value_wrapContent content h "venue"

/-- Counterexample to C4 as stated: for a list-valued field holding a plain
string, the plain shape is coerced to the empty list while the wrapped shape
passes the string through to the join, so the two records differ. -/
theorem extract_wrapped_ne_plain_counterexample :
    extract_paper_from_note
        (Note.mk "n1" (some (wrapContent [("authors", CVal.vstr "ab")])) none none) 2024 ≠
    extract_paper_from_note
        (Note.mk "n1" (some [("authors", CVal.vstr "ab")]) none none) 2024 := by
  decide

/-- Witness for the amended C4 on concrete well-shaped content. -/
theorem extract_wrapped_eq_plain_witness :
    extract_paper_from_note
        (Note.mk "n2"
          (some (wrapContent [("title", CVal.vstr "T"), ("authors", CVal.vlist ["A", "B"])]))
          none none) 2024 =
    extract_paper_from_note
        (Note.mk "n2" (some [("title", CVal.vstr "T"), ("authors", CVal.vlist ["A", "B"])])
          none none) 2024 :=
  extract_wrapped_eq_plain "n2" 2024 none none
    [("title", CVal.vstr "T"), ("authors", CVal.vlist ["A", "B"])] (by decide)

/-- A reply whose field extraction runs without raising: well-formed content
and a signatures list that is not present-and-empty. -/
def replyExtractable (r : Reply) : Bool :=
  match r.content, r.signatures with
  | .malformed _, _ => false
  | .fields _, some [] => false
  | .fields _, _ => true

/-- The content map of a reply, empty for the malformed shape. -/
def fieldsOf (r : Reply) : List (String × String) :=
  match r.content with
  | .fields m => m
  | .malformed _ => []

/-- On an extractable reply the try block returns the built record. -/
theorem extractReviewRecord_ok (pid : String) (y : Int) (v : String) (r : Reply)
    (h : replyExtractable r = true) :
    extractReviewRecord pid y v r = .ok (mkReviewRecord pid y v r (fieldsOf r)) := by
  obtain ⟨id, invitation, signatures, content, cdate⟩ := r
  cases content with
  | malformed e => simp [replyExtractable] at h
  | fields m =>
    cases signatures with
    | none => simp [extractReviewRecord, fieldsOf]
    | some l =>
      cases l with
      | nil => simp [replyExtractable] at h
      | cons s rest => simp [extractReviewRecord, fieldsOf]

/-- When every review-classified reply is extractable, the loop keeps exactly
the review-classified replies, in order, each mapped to its built record. -/
theorem extractReviewsLoop_eq (pid : String) (y : Int) (v : String)
    (rs : List Reply)
    (h : ∀ r ∈ rs, isReviewInvitation r.invitation = true → replyExtractable r = true) :
    extractReviewsLoop pid y v rs =
      (rs.filter (fun r => isReviewInvitation r.invitation)).map
        (fun r => mkReviewRecord pid y v r (fieldsOf r)) := by
  induction rs with
  | nil => rfl
  | cons r rest ih =>
    have hrest : ∀ q ∈ rest, isReviewInvitation q.invitation = true →
        replyExtractable q = true :=
      fun q hq => h q (List.mem_cons_of_mem r hq)
    by_cases hm : isReviewInvitation r.invitation = true
    · rw [extractReviewsLoop, if_pos hm,
        extractReviewRecord_ok pid y v r (h r (List.mem_cons_self r rest) hm),
        List.filter_cons_of_pos (p := fun (q : Reply) => isReviewInvitation q.invitation) hm,
        List.map_cons, ih hrest]
    · rw [extractReviewsLoop, if_neg hm,
        List.filter_cons_of_neg (p := fun (q : Reply) => isReviewInvitation q.invitation) hm,
        ih hrest]

/-- C3 (amended): for a submission whose review-classified replies all
extract without raising, extract_reviews returns exactly one record per
review-classified reply (zero for every other reply), in reply order, each
with the full review text built from the fixed section order with only the
non-empty sections, upper-cased names, blank-line joins and a final strip;
in particular a review with only summary ok and strengths good yields the
two-section text.  Replies whose extraction raises are skipped (see the
counterexample for the claim as stated). -/
theorem extract_reviews_one_per_marker (pid : String) (y : Int) (v : String)
    (c : Option (List (String × CVal))) (d : Option Int) (rs : List Reply)
    (h : ∀ r ∈ rs, isReviewInvitation r.invitation = true → replyExtractable r = true) :
    (extract_reviews (Note.mk pid c (some rs) d) y v).length =
      (rs.filter (fun r => isReviewInvitation r.invitation)).length ∧
    (∀ i : Nat,
      (extract_reviews (Note.mk pid c (some rs) d) y v)[i]?.map ReviewRecord.review_id =
        ((rs.filter (fun r => isReviewInvitation r.invitation))[i]?).map Reply.id) ∧
    (∀ i : Nat,
      (extract_reviews (Note.mk pid c (some rs) d) y v)[i]?.map
          ReviewRecord.full_review_text =
        ((rs.filter (fun r => isReviewInvitation r.invitation))[i]?).map
          (fun r => pyStrip (buildFullText (fieldsOf r)))) ∧
    pyStrip (buildFullText [("summary", "ok"), ("strengths", "good")]) =
      "SUMMARY: ok\n\nSTRENGTHS: good" := by
  have hloop : extract_reviews (Note.mk pid c (some rs) d) y v =
      (rs.filter (fun r => isReviewInvitation r.invitation)).map
        (fun r => mkReviewRecord pid y v r (fieldsOf r)) :=
    extractReviewsLoop_eq pid y v rs h
  refine ⟨?_, ?_, ?_, by decide⟩
  · rw [hloop, List.length_map]
  · intro i
    rw [hloop, List.getElem?_map]
    cases (rs.filter (fun r => isReviewInvitation r.invitation))[i]? <;> rfl
  · intro i
    rw [hloop, List.getElem?_map]
    cases (rs.filter (fun r => isReviewInvitation r.invitation))[i]? <;> rfl

/-- Counterexample to C3 as stated: a submission with two review-classified
replies, one of which has a present-but-empty signatures list, yields only
one record, not one per review-classified reply. -/
theorem extract_reviews_marker_counterexample :
    (extract_reviews (Note.mk "p1" none (some [goodReviewReply, emptySigReply]) none)
        2024 "ICLR.cc/2024/Conference").length = 1 ∧
    ([goodReviewReply, emptySigReply].filter
        (fun r => isReviewInvitation r.invitation)).length = 2 := by
  decide

/-- Witness for the amended C3 on a concrete submission with one review
reply and one decision reply. -/
theorem extract_reviews_one_per_marker_witness :
    (extract_reviews (Note.mk "p2" none (some [goodReviewReply, decisionReply]) none)
        2024 "ICLR.cc/2024/Conference").length =
      ([goodReviewReply, decisionReply].filter
        (fun r => isReviewInvitation r.invitation)).length ∧
    pyStrip (buildFullText [("summary", "ok"), ("strengths", "good")]) =
      "SUMMARY: ok\n\nSTRENGTHS: good" :=
  ⟨(extract_reviews_one_per_marker "p2" 2024 "ICLR.cc/2024/Conference" none none
      [goodReviewReply, decisionReply] (by decide)).1,
   (extract_reviews_one_per_marker "p2" 2024 "ICLR.cc/2024/Conference" none none
      [goodReviewReply, decisionReply] (by decide)).2.2.2⟩

/-- C5 (amended): for a review reply with well-formed content, the reviewer
of the produced record is the first signature when the signatures list is
non-empty, and the literal Anonymous when the signatures key is absent; when
the signatures key is present with an empty list, indexing raises, the reply
produces no record at all, and it is skipped by extract_reviews. -/
theorem reviewer_policy (pid : String) (y : Int) (v : String) (r : Reply)
    (m : List (String × String)) (hm : r.content = .fields m) :
    (∀ s rest, r.signatures = some (s :: rest) →
      extractReviewRecord pid y v r = .ok (mkReviewRecord pid y v r m) ∧
      (mkReviewRecord pid y v r m).reviewer = s) ∧
    (r.signatures = none →
      extractReviewRecord pid y v r = .ok (mkReviewRecord pid y v r m) ∧
      (mkReviewRecord pid y v r m).reviewer = "Anonymous") ∧
    (r.signatures = some [] →
      extractReviewRecord pid y v r = .error "list index out of range" ∧
      extract_reviews (Note.mk pid none (some [r]) none) y v = []) := by
  refine ⟨?_, ?_, ?_⟩
  · intro s rest hs
    exact ⟨by simp [extractReviewRecord, hm, hs], by simp [mkReviewRecord, hs]⟩
  · intro hs
    exact ⟨by simp [extractReviewRecord, hm, hs], by simp [mkReviewRecord, hs]⟩
  · intro hs
    have herr : extractReviewRecord pid y v r = .error "list index out of range" := by
      simp [extractReviewRecord, hm, hs]
    refine ⟨herr, ?_⟩
    show extractReviewsLoop pid y v [r] = []
    by_cases hi : isReviewInvitation r.invitation = true
    · simp [extractReviewsLoop, hi, herr]
    · simp [extractReviewsLoop, hi]

/-- Counterexample to C5 as stated: a review-classified reply whose
signatures list is present but empty yields no record at all (it is dropped),
rather than a record with reviewer Anonymous. -/
theorem reviewer_empty_signatures_counterexample :
    emptySigReply.signatures = some [] ∧
    isReviewInvitation emptySigReply.invitation = true ∧
    extract_reviews (Note.mk "p5" none (some [emptySigReply]) none)
      2024 "ICLR.cc/2024/Conference" = [] := by
  decide

/-- Witness for the amended C5 at three concrete replies: first signature,
absent signatures key, and present-but-empty signatures. -/
theorem reviewer_policy_witness :
    (mkReviewRecord "p" 2024 "v" goodReviewReply
        [("summary", "ok"), ("strengths", "good"), ("rating", "8")]).reviewer =
      "Reviewer_abc" ∧
    (mkReviewRecord "p" 2024 "v" noSigReply [("summary", "fine")]).reviewer =
      "Anonymous" ∧
    extractReviewRecord "p" 2024 "v" emptySigReply =
      .error "list index out of range" :=
  ⟨((reviewer_policy "p" 2024 "v" goodReviewReply
      [("summary", "ok"), ("strengths", "good"), ("rating", "8")] rfl).1
      "Reviewer_abc" [] rfl).2,
   ((reviewer_policy "p" 2024 "v" noSigReply [("summary", "fine")] rfl).2.1 rfl).2,
   ((reviewer_policy "p" 2024 "v" emptySigReply [("summary", "meh")] rfl).2.2 rfl).1⟩

/-- C6: a reply whose field extraction raises is skipped and the remaining
replies of the same submission are extracted exactly as if the failing reply
were not there; the error never escapes extract_reviews (which is total). -/
theorem review_error_skipped (pid : String) (y : Int) (v : String)
    (c : Option (List (String × CVal))) (d : Option Int)
    (pre post : List Reply) (b : Reply) (e : String)
    (hb : extractReviewRecord pid y v b = .error e) :
    extract_reviews (Note.mk pid c (some (pre ++ b :: post)) d) y v =
    extract_reviews (Note.mk pid c (some (pre ++ post)) d) y v := by
  show extractReviewsLoop pid y v (pre ++ b :: post) =
    extractReviewsLoop pid y v (pre ++ post)
  induction pre with
  | nil =>
    show extractReviewsLoop pid y v (b :: post) = extractReviewsLoop pid y v post
    by_cases hi : isReviewInvitation b.invitation = true
    · rw [extractReviewsLoop, if_pos hi, hb]
    · rw [extractReviewsLoop, if_neg hi]
  | cons a pre ih =>
    simp only [List.cons_append, extractReviewsLoop, List.append_eq]
    rw [ih]

/-- Witness for C6: a submission with a good review, a malformed reply and a
decision reply extracts identically to the same submission without the
malformed reply. -/
theorem review_error_skipped_witness :
    extractReviewRecord "p6" 2024 "v" malformedReply = .error "AttributeError" ∧
    extract_reviews
        (Note.mk "p6" none (some ([goodReviewReply] ++ malformedReply :: [decisionReply]))
          none) 2024 "v" =
      extract_reviews (Note.mk "p6" none (some ([goodReviewReply] ++ [decisionReply]))
          none) 2024 "v" :=
  ⟨rfl,
   review_error_skipped "p6" 2024 "v" none none [goodReviewReply] [decisionReply]
     malformedReply "AttributeError" rfl⟩

/-- C7 (amended): an unsupported filter category makes the fetch stage fail
fast with the ValueError (the ConfigurationError of the specification) before
any network request is issued (zero requests, whatever the remote would
answer); but the collect_filtered boundary does not surface this as a
structured error for a category outside its own filter_map: it returns a
silent empty result. -/
theorem fetch_unsupported_filter_failfast (f : String)
    (responses : List HttpResponse) (hf : f ∉ supported_filters) :
    fetch_filtered_notes f responses =
      (Except.error (.configError ("Filter " ++ f ++ " is not supported.")), 0) ∧
    (filter_map.lookup (pyLower f) = none →
      collect_filtered 2024 f responses = Except.ok []) := by
  constructor
  · simp [fetch_filtered_notes, hf]
  · intro h
    simp [collect_filtered, h]

/-- Counterexample to C7 as stated: a category outside the supported set
reaches the collect_filtered boundary as a plain success with an empty list,
a silent empty result rather than a structured error. -/
theorem collect_filtered_silent_empty_counterexample :
    ¬("badfilter" ∈ supported_filters) ∧
    collect_filtered 2024 "badfilter" [] = Except.ok [] := by
  refine ⟨by decide, ?_⟩
  rfl

/-- Witness for the amended C7 at a concrete unsupported category. -/
theorem fetch_unsupported_filter_failfast_witness :
    ¬("badfilter" ∈ supported_filters) ∧
    fetch_filtered_notes "badfilter" [HttpResponse.mk 200 [wNote1]] =
      (Except.error (.configError ("Filter " ++ "badfilter" ++ " is not supported.")), 0) :=
  ⟨by decide,
   (fetch_unsupported_filter_failfast "badfilter" [HttpResponse.mk 200 [wNote1]]
     (by decide)).1⟩

/-- C9: under the per-career-entry flattening policy, a profile with a
non-empty career history yields exactly one row per entry, all rows sharing
the scalar profile fields and differing only in position, institution and
timeframe (each taken from the corresponding entry, in order); a profile
with an empty career history yields exactly the single fallback row whose
position, institution and timeframe are empty. -/
theorem flatten_profile_policy_b (r : ProfileRecord) :
    (pgCareer r = [] →
      flatten_profile_rows r = [authorRowOf r "" "" ""] ∧
      (authorRowOf r "" "" "").position = "" ∧
      (authorRowOf r "" "" "").institution = "" ∧
      (authorRowOf r "" "" "").timeframe = "") ∧
    (pgCareer r ≠ [] →
      (flatten_profile_rows r).length = (pgCareer r).length ∧
      (∀ row ∈ flatten_profile_rows r, rowScalars row = rowScalars (authorRowOf r "" "" "")) ∧
      (∀ i : Nat,
        (flatten_profile_rows r)[i]?.map
            (fun row => (row.position, row.institution, row.timeframe)) =
          (pgCareer r)[i]?.map
            (fun e => (e.position, e.institution, e.timeframe)))) := by
  constructor
  · intro h
    refine ⟨?_, rfl, rfl, rfl⟩
    unfold flatten_profile_rows
    rw [h]
  · intro h
    cases hc : pgCareer r with
    | nil => exact absurd hc h
    | cons eh et =>
      have hrows : flatten_profile_rows r =
          (eh :: et).map (fun e => authorRowOf r e.position e.institution e.timeframe) := by
        unfold flatten_profile_rows
        rw [hc]
      refine ⟨?_, ?_, ?_⟩
      · rw [hrows, List.length_map]
      · intro row hrow
        rw [hrows] at hrow
        obtain ⟨e, he, hrfl⟩ := List.mem_map.mp hrow
        rw [← hrfl]
        rfl
      · intro i
        rw [hrows, List.getElem?_map]
        cases (eh :: et)[i]? <;> rfl

/-- A profile record with two career history entries. -/
def profTwo : ProfileRecord :=
  { author_id := "author_one"
    error := none
    profile := some
      { name := "Ada Lovelace"
        preferred_name := "Ada"
        affiliation := "Analytical Engine Lab"
        emails := "ada@example.org"
        joined_date := some "2015"
        personal_links := [("homepage", "https://example.org/ada")]
        career_and_education_history :=
          [CareerEntry.mk "Professor" "Cambridge" "2015-2018",
           CareerEntry.mk "Student" "London" "1833-1840"]
        advisors_relations_and_conflicts := [AdvisorEntry.mk "Advisor" "Babbage" "1833-1840"]
        expertise := [ExpertiseEntry.mk "computing" "1833-1852"] } }

/-- A degraded profile record with no parsed profile, hence no career
history. -/
def profNone : ProfileRecord :=
  { author_id := "author_two", error := none, profile := none }

/-- Witness for C9 at a two-entry profile and at an empty-history profile. -/
theorem flatten_profile_policy_b_witness :
    (flatten_profile_rows profTwo).length = (pgCareer profTwo).length ∧
    flatten_profile_rows profNone = [authorRowOf profNone "" "" ""] :=
  ⟨((flatten_profile_policy_b profTwo).2 (by decide)).1,
   ((flatten_profile_policy_b profNone).1 rfl).1⟩
